import Mathlib

/-!
Shallow embedding of the `slint-baseview` embedding adapter
(`src/window_adapter.rs`, `src/platform.rs`, `src/renderer.rs`).

Scalar values that are `f32`/`f64` in the source are modelled as exact
rationals (`ℚ`); machine floating point rounding is not modelled.  Event
dispatch to the UI engine (`slint_window.dispatch_event`) and calls into the
renderer adapter (`renderer().resize`) are modelled as an explicit trace of
`Action`s emitted by each operation, in source order.  Interior mutability
(`RefCell<EmbeddedWindowAdapterInner>`) becomes explicit state passing.
-/

namespace SlintBaseview

/-- `i_slint_core::api::LogicalPosition` (UI-logical coordinates, `f32` fields). -/
structure LogicalPosition where
  x : ℚ
  y : ℚ
deriving DecidableEq, Repr

/-- `i_slint_core::api::LogicalSize` (`f32` fields). -/
structure LogicalSize where
  width : ℚ
  height : ℚ
deriving DecidableEq, Repr

/-- `i_slint_core::api::PhysicalSize`.  Modelled with exact rational components:
the source computes it as logical size times a scale factor. -/
structure PhysicalSize where
  width : ℚ
  height : ℚ
deriving DecidableEq, Repr

/-- `LogicalSize::to_physical(scale_factor)` from the UI engine's API:
componentwise multiplication by the scale factor (the engine's integer
truncation of the product is outside the repository and not modelled). -/
def LogicalSize.to_physical (s : LogicalSize) (scale_factor : ℚ) : PhysicalSize :=
  ⟨s.width * scale_factor, s.height * scale_factor⟩

/-- `i_slint_core::items::PointerEventButton`. -/
inductive PointerEventButton
  | Left
  | Middle
  | Right
  | Back
  | Forward
  | Other
deriving DecidableEq, Repr

/-- `baseview::MouseButton`. -/
inductive MouseButton
  | Left
  | Middle
  | Right
  | Back
  | Forward
  | Other (code : ℕ)
deriving DecidableEq, Repr

/-- The individual flags of `keyboard_types::Modifiers` that
`send_modifiers` enumerates. -/
inductive Modifier
  | ALT
  | ALT_GRAPH
  | CAPS_LOCK
  | CONTROL
  | FN
  | FN_LOCK
  | META
  | NUM_LOCK
  | SCROLL_LOCK
  | SHIFT
  | SYMBOL
  | SYMBOL_LOCK
  | HYPER
  | SUPER
deriving DecidableEq, BEq, Repr

/-- A `keyboard_types::Modifiers` bitflag set, modelled as the list of its
active flags; `contains` is membership. -/
def Modifiers := List Modifier

instance : DecidableEq Modifiers := inferInstanceAs (DecidableEq (List Modifier))

instance : Repr Modifiers := inferInstanceAs (Repr (List Modifier))

/-- `Modifiers::contains` for a single flag. -/
def Modifiers.contains (m : Modifiers) (md : Modifier) : Bool :=
  List.contains m md

/-- `baseview::ScrollDelta`. -/
inductive ScrollDelta
  | Lines (x y : ℚ)
  | Pixels (x y : ℚ)
deriving DecidableEq, Repr

/-- `keyboard_types::KeyState`. -/
inductive KeyState
  | Down
  | Up
deriving DecidableEq, Repr

/-- The `i_slint_core::platform::WindowEvent`s this adapter dispatches. -/
inductive WindowEvent
  | ScaleFactorChanged (scale_factor : ℚ)
  | PointerMoved (position : LogicalPosition)
  | PointerPressed (position : LogicalPosition) (button : PointerEventButton)
  | PointerReleased (position : LogicalPosition) (button : PointerEventButton)
  | PointerScrolled (position : LogicalPosition) (delta_x delta_y : ℚ)
  | PointerExited
  | KeyPressed (text : String)
  | KeyPressRepeated (text : String)
  | KeyReleased (text : String)
  | Resized (size : LogicalSize)
  | WindowActiveChanged (active : Bool)
  | CloseRequested
deriving DecidableEq, Repr

/-- `baseview::WindowInfo` as consumed by the `Resized` arm: the adapter reads
`info.logical_size()` and `info.scale()`. -/
structure WindowInfo where
  logicalSize : LogicalSize
  scale : ℚ
deriving DecidableEq, Repr

/-- `baseview::MouseEvent` (the arms the adapter handles; every other arm of
the host enumeration falls into `OtherMouse`, the `_ => Ignored` branch). -/
inductive MouseEvent
  | CursorMoved (position : LogicalPosition) (modifiers : Modifiers)
  | ButtonPressed (button : MouseButton) (modifiers : Modifiers)
  | ButtonReleased (button : MouseButton) (modifiers : Modifiers)
  | WheelScrolled (delta : ScrollDelta) (modifiers : Modifiers)
  | CursorLeft
  | OtherMouse
deriving DecidableEq, Repr

/-- `baseview::Event`.  The keyboard event carries the key text after the
`for_each_special_keys!` conversion (that table lives in the external
`i_slint_common` crate), plus modifiers, state and the repeat flag. -/
inductive Event
  | Mouse (e : MouseEvent)
  | Keyboard (text : String) (modifiers : Modifiers) (state : KeyState) (isRepeat : Bool)
  | Resized (info : WindowInfo)
  | Focused
  | Unfocused
  | WillClose
deriving DecidableEq, Repr

/-- `baseview::EventStatus`. -/
inductive EventStatus
  | Ignored
  | Captured
deriving DecidableEq, Repr

/-- `baseview::WindowScalePolicy`. -/
inductive WindowScalePolicy
  | SystemScaleFactor
  | ScaleFactor (s : ℚ)
deriving DecidableEq, Repr

/-- One observable effect of an adapter operation: an event dispatched to the
UI engine window, or a resize call into the renderer adapter. -/
inductive Action
  | dispatch (e : WindowEvent)
  | rendererResize (size : PhysicalSize)
deriving DecidableEq, Repr

/-- `EmbeddedWindowAdapterInner` (`window_adapter.rs`). -/
structure EmbeddedWindowAdapterInner where
  size : LogicalSize
  system_scale_factor : ℚ
  user_scale_factor : ℚ
  mouse_pos : LogicalPosition
  mouse_down : Bool
  pending_mouse_exit : Bool
deriving DecidableEq, Repr

/-- `EmbeddedWindowAdapterInner::scale`. -/
def EmbeddedWindowAdapterInner.scale (i : EmbeddedWindowAdapterInner) : ℚ :=
  i.system_scale_factor * i.user_scale_factor

/-- `EmbeddedWindowAdapterInner::physical_size`. -/
def EmbeddedWindowAdapterInner.physical_size (i : EmbeddedWindowAdapterInner) : PhysicalSize :=
  i.size.to_physical i.scale

/-- `<EmbeddedWindowAdapter as WindowAdapter>::size`. -/
def wa_size (i : EmbeddedWindowAdapterInner) : PhysicalSize :=
  i.physical_size

/-- `EmbeddedWindowAdapter::LINE_PX`. -/
def LINE_PX : ℚ := 60

/-- `EmbeddedWindowAdapter::convert_button`. -/
def convert_button : MouseButton → PointerEventButton
  | MouseButton.Left => PointerEventButton.Left
  | MouseButton.Middle => PointerEventButton.Middle
  | MouseButton.Right => PointerEventButton.Right
  | MouseButton.Back => PointerEventButton.Back
  | MouseButton.Forward => PointerEventButton.Forward
  | MouseButton.Other _ => PointerEventButton.Other

/-- `EmbeddedWindowAdapter::convert_modifier`.  In the source the argument is
always one single flag out of the loop in `send_modifiers`, so the bitflag
equality chain is a total match on that flag.  Note the scroll-lock arm: the
source maps it to the private-use character `"\u{F72F}"` (written here with
the explicit escape `"\uF72F"` because the character itself renders
invisibly); only the wildcard arm is the empty string. -/
def convert_modifier : Modifier → String
  | Modifier.ALT => "\u0012"
  | Modifier.ALT_GRAPH => "\u0013"
  | Modifier.CAPS_LOCK => "\u0014"
  | Modifier.CONTROL => "\u0017"
  | Modifier.META => "\u0011"
  | Modifier.SCROLL_LOCK => "\uF72F"
  | Modifier.SHIFT => "\u0010"
  | Modifier.SUPER => "\u0017"
  | _ => ""

/-- The fixed array literal `send_modifiers` iterates over, in source order. -/
def modifierOrder : List Modifier :=
  [Modifier.ALT, Modifier.ALT_GRAPH, Modifier.CAPS_LOCK, Modifier.CONTROL,
   Modifier.FN, Modifier.FN_LOCK, Modifier.META, Modifier.NUM_LOCK,
   Modifier.SCROLL_LOCK, Modifier.SHIFT, Modifier.SYMBOL, Modifier.SYMBOL_LOCK,
   Modifier.HYPER, Modifier.SUPER]

/-- `EmbeddedWindowAdapter::send_modifiers`: the for-loop with its two
`continue`s, as a fold accumulating dispatched actions. -/
def send_modifiers (modifiers : Modifiers) : List Action :=
  modifierOrder.foldl
    (fun acc modifier =>
      if ¬ modifiers.contains modifier then acc
      else
        let text := convert_modifier modifier
        if text = "" then acc
        else acc ++ [Action.dispatch (WindowEvent.KeyPressed text)])
    []

/-- `EmbeddedWindowAdapter::on_event`: next state, emitted actions in source
order, and the returned `EventStatus`. -/
def on_event (i : EmbeddedWindowAdapterInner) :
    Event → EmbeddedWindowAdapterInner × List Action × EventStatus
  | Event.Mouse (MouseEvent.CursorMoved position modifiers) =>
    let mouse_pos : LogicalPosition :=
      ⟨position.x / i.user_scale_factor, position.y / i.user_scale_factor⟩
    ({ i with mouse_pos := mouse_pos },
     send_modifiers modifiers ++ [Action.dispatch (WindowEvent.PointerMoved mouse_pos)],
     EventStatus.Captured)
  | Event.Mouse (MouseEvent.ButtonPressed button modifiers) =>
    ({ i with mouse_down := true },
     send_modifiers modifiers ++
       [Action.dispatch (WindowEvent.PointerPressed i.mouse_pos (convert_button button))],
     EventStatus.Captured)
  | Event.Mouse (MouseEvent.ButtonReleased button modifiers) =>
    let exit := i.pending_mouse_exit
    ({ i with mouse_down := false },
     send_modifiers modifiers ++
       [Action.dispatch (WindowEvent.PointerReleased i.mouse_pos (convert_button button))] ++
       (if exit then [Action.dispatch WindowEvent.PointerExited] else []),
     EventStatus.Captured)
  | Event.Mouse (MouseEvent.WheelScrolled delta modifiers) =>
    let d : ℚ × ℚ :=
      match delta with
      | ScrollDelta.Lines x y => (x * LINE_PX, y * LINE_PX)
      | ScrollDelta.Pixels x y => (x, y)
    (i,
     send_modifiers modifiers ++
       [Action.dispatch (WindowEvent.PointerScrolled i.mouse_pos d.1 d.2)],
     EventStatus.Captured)
  | Event.Mouse MouseEvent.CursorLeft =>
    if i.mouse_down then
      ({ i with pending_mouse_exit := true }, [], EventStatus.Captured)
    else
      (i, [Action.dispatch WindowEvent.PointerExited], EventStatus.Captured)
  | Event.Mouse MouseEvent.OtherMouse =>
    (i, [], EventStatus.Ignored)
  | Event.Keyboard text modifiers state rep =>
    (i,
     send_modifiers modifiers ++
       (match state with
        | KeyState.Down =>
          if rep then [Action.dispatch (WindowEvent.KeyPressRepeated text)]
          else [Action.dispatch (WindowEvent.KeyPressed text)]
        | KeyState.Up => [Action.dispatch (WindowEvent.KeyReleased text)]),
     EventStatus.Captured)
  | Event.Resized info =>
    let inner : EmbeddedWindowAdapterInner :=
      { i with size := info.logicalSize, system_scale_factor := info.scale }
    (inner,
     [Action.rendererResize inner.physical_size,
      Action.dispatch (WindowEvent.Resized inner.size)],
     EventStatus.Captured)
  | Event.Focused =>
    (i, [Action.dispatch (WindowEvent.WindowActiveChanged true)], EventStatus.Captured)
  | Event.Unfocused =>
    (i, [Action.dispatch (WindowEvent.WindowActiveChanged false)], EventStatus.Captured)
  | Event.WillClose =>
    (i, [Action.dispatch WindowEvent.CloseRequested], EventStatus.Captured)

/-- `EmbeddedWindowAdapter::set_user_scale_factor`. -/
def set_user_scale_factor (i : EmbeddedWindowAdapterInner) (user_scale_factor : ℚ) :
    EmbeddedWindowAdapterInner × List Action :=
  let inner := { i with user_scale_factor := user_scale_factor }
  (inner,
   [Action.rendererResize inner.physical_size,
    Action.dispatch (WindowEvent.ScaleFactorChanged user_scale_factor)])

/-- `EmbeddedWindowAdapter::new`: the initial inner state and the
`ScaleFactorChanged` event dispatched during construction. -/
def adapter_new (size : LogicalSize) (user_scale_factor : ℚ)
    (system_scale_policy : WindowScalePolicy) :
    EmbeddedWindowAdapterInner × List Action :=
  ({ size := size
     system_scale_factor :=
       match system_scale_policy with
       | WindowScalePolicy.SystemScaleFactor => 1
       | WindowScalePolicy.ScaleFactor s => s
     user_scale_factor := user_scale_factor
     mouse_pos := ⟨0, 0⟩
     mouse_down := false
     pending_mouse_exit := false },
   [Action.dispatch (WindowEvent.ScaleFactorChanged user_scale_factor)])

/-- Runs a sequence of host events through `on_event`, concatenating the
emitted actions. -/
def run_events (i : EmbeddedWindowAdapterInner) :
    List Event → EmbeddedWindowAdapterInner × List Action
  | [] => (i, [])
  | e :: rest =>
    let step := on_event i e
    let next := run_events step.1 rest
    (next.1, step.2.1 ++ next.2)

/-- An operation on a live adapter: a host event or an embedding-side
`set_user_scale_factor` call. -/
inductive Op
  | host (e : Event)
  | setUserScale (f : ℚ)
deriving Repr

/-- State transition of one `Op`. -/
def applyOp (i : EmbeddedWindowAdapterInner) : Op → EmbeddedWindowAdapterInner
  | Op.host e => (on_event i e).1
  | Op.setUserScale f => (set_user_scale_factor i f).1

/-- State after a sequence of operations. -/
def applyOps (i : EmbeddedWindowAdapterInner) (ops : List Op) : EmbeddedWindowAdapterInner :=
  ops.foldl applyOp i

/-- `<EmbeddedPlatform as Platform>::create_window_adapter` (`platform.rs`):
`WINDOW_ADAPTER_INNER.with_borrow_mut(|a| match a.take() ...)`.  The
thread-local slot holds the prepared adapter, modelled by an identity of type
`ℕ`; the result is the slot after the call together with the returned
`Result`, whose error is `PlatformError::Other` with the source's message. -/
def create_window_adapter (slot : Option ℕ) : Option ℕ × Except String ℕ :=
  match slot with
  | some a => (none, Except.ok a)
  | none => (none, Except.error "No `WINDOW_ADAPTER_INNER`")

/-- The deposit in `window.rs`:
`WINDOW_ADAPTER_INNER.with_borrow_mut(|a| a.replace(window_adapter))` —
`Option::replace` overwrites the slot with the new adapter. -/
def deposit_window_adapter (slot : Option ℕ) (adapter : ℕ) : Option ℕ :=
  let _ := slot
  some adapter

/-- Observable effects of `EmbeddedSoftwareRendererAdapter::render`
(`renderer.rs`): resize the softbuffer surface, let the software renderer fill
the pixel buffer, present it. -/
inductive SoftAction
  | surfaceResize (width height : ℚ)
  | softwareRender (width : ℚ)
  | present
deriving DecidableEq, Repr

/-- `EmbeddedSoftwareRendererAdapter`: what matters for control flow is
whether `set_window` has stored a surface (`RefCell<Option<Surface>>`). -/
structure EmbeddedSoftwareRendererAdapter where
  surface : Option Unit
deriving DecidableEq, Repr

/-- `EmbeddedSoftwareRendererAdapter::default()`: no context, no surface. -/
def software_default : EmbeddedSoftwareRendererAdapter :=
  ⟨none⟩

/-- `EmbeddedSoftwareRendererAdapter::set_window`: stores a freshly created
context/surface pair (external softbuffer creation errors not modelled). -/
def software_set_window (a : EmbeddedSoftwareRendererAdapter) :
    EmbeddedSoftwareRendererAdapter × Except String Unit :=
  let _ := a
  (⟨some ()⟩, Except.ok ())

/-- `EmbeddedSoftwareRendererAdapter::render`.  When no surface has been
stored yet it returns `Ok(())` at once; otherwise it resizes the surface to
the window's size, renders into the buffer and presents (the external
softbuffer calls are modelled as succeeding actions — the claim settled
against this definition concerns only the unattached branch). -/
def software_render (a : EmbeddedSoftwareRendererAdapter) (window_size : PhysicalSize) :
    EmbeddedSoftwareRendererAdapter × List SoftAction × Except String Unit :=
  match a.surface with
  | none => (a, [], Except.ok ())
  | some _ =>
    (a,
     [SoftAction.surfaceResize window_size.width window_size.height,
      SoftAction.softwareRender window_size.width,
      SoftAction.present],
     Except.ok ())

/-- Whether an action is a dispatched `ScaleFactorChanged` event. -/
def isScaleFactorChanged : Action → Bool
  | Action.dispatch (WindowEvent.ScaleFactorChanged _) => true
  | _ => false

/-- Unfolding of the `send_modifiers` loop: the fold over any modifier list
emits, after the accumulator, one synthetic key-press per contained modifier
whose mapped text is non-empty, in list order. -/
theorem send_modifiers_foldl_eq (modifiers : Modifiers) (l : List Modifier) :
    ∀ acc : List Action,
      l.foldl
        (fun acc modifier =>
          if ¬ modifiers.contains modifier then acc
          else
            let text := convert_modifier modifier
            if text = "" then acc
            else acc ++ [Action.dispatch (WindowEvent.KeyPressed text)])
        acc
      = acc ++ (l.filter
          (fun md => modifiers.contains md && !(convert_modifier md == ""))).map
          (fun md => Action.dispatch (WindowEvent.KeyPressed (convert_modifier md))) := by
  induction l with
  | nil => intro acc; simp
  | cons hd tl ih =>
    intro acc
    rw [List.foldl_cons, ih, List.filter_cons]
    by_cases hc : modifiers.contains hd
    · by_cases he : convert_modifier hd = ""
      · simp [hc, he]
      · simp [hc, he]
    · simp [hc]

/-- `send_modifiers` dispatches exactly one synthetic key-press for each
active modifier with a non-empty mapping, in the fixed enumeration order. -/
theorem send_modifiers_eq (modifiers : Modifiers) :
    send_modifiers modifiers =
      (modifierOrder.filter
        (fun md => modifiers.contains md && !(convert_modifier md == ""))).map
        (fun md => Action.dispatch (WindowEvent.KeyPressed (convert_modifier md))) :=
  (send_modifiers_foldl_eq modifiers modifierOrder []).trans (List.nil_append _)

/-- `send_modifiers` never dispatches a `ScaleFactorChanged` event. -/
theorem send_modifiers_sfc (modifiers : Modifiers) :
    (send_modifiers modifiers).filter isScaleFactorChanged = [] := by
  rw [send_modifiers_eq]
  induction (modifierOrder.filter
      (fun md => modifiers.contains md && !(convert_modifier md == ""))) with
  | nil => rfl
  | cons hd tl ih => simp [isScaleFactorChanged, ih]

/-- A concrete pre-event adapter state used for the C1 failing input. -/
def c1_initial : EmbeddedWindowAdapterInner :=
  ⟨⟨800, 600⟩, 1, 1, ⟨0, 0⟩, false, false⟩

/-- The C1 failing input: press, cursor-left while down, release (the
deferred exit fires here), then a second unrelated press/release. -/
def c1_events : List Event :=
  [Event.Mouse (MouseEvent.ButtonPressed MouseButton.Left []),
   Event.Mouse MouseEvent.CursorLeft,
   Event.Mouse (MouseEvent.ButtonReleased MouseButton.Left []),
   Event.Mouse (MouseEvent.ButtonPressed MouseButton.Left []),
   Event.Mouse (MouseEvent.ButtonReleased MouseButton.Left [])]

/-- C1: the `ButtonReleased` arm reads `pending_mouse_exit` but never resets
it, so once a cursor-left occurred during a button press, every later button
release re-dispatches `PointerExited`.  On the failing input the trace shows
the deferred exit dispatched after BOTH releases (count = 2), contradicting
the claim's "never twice across any subsequent sequence of press/release
events".  The trace also exhibits the confirmed parts: no exit at the
cursor-left moment, and the first deferred exit right after the
pointer-release dispatch. -/
theorem deferred_exit_dispatched_twice :
    (run_events c1_initial c1_events).2 =
      [Action.dispatch (WindowEvent.PointerPressed ⟨0, 0⟩ PointerEventButton.Left),
       Action.dispatch (WindowEvent.PointerReleased ⟨0, 0⟩ PointerEventButton.Left),
       Action.dispatch WindowEvent.PointerExited,
       Action.dispatch (WindowEvent.PointerPressed ⟨0, 0⟩ PointerEventButton.Left),
       Action.dispatch (WindowEvent.PointerReleased ⟨0, 0⟩ PointerEventButton.Left),
       Action.dispatch WindowEvent.PointerExited]
    ∧ (run_events c1_initial c1_events).2.count
        (Action.dispatch WindowEvent.PointerExited) = 2 := by
  exact ⟨by decide, by decide⟩

/-- C2: every pointer event carrying a modifier set and every keyboard-down
event first dispatches, per active modifier with a non-empty mapping and in
the fixed enumeration order of `modifierOrder` (which is duplicate-free, so
exactly one press per enumerated modifier), a synthetic key-press, before the
real event; control and super map to the same code "\u0017", and fn, fn-lock,
num-lock, symbol, symbol-lock and hyper map to the empty string and dispatch
nothing.  Every individual mapping is pinned explicitly; in particular
scroll-lock maps to the NON-empty private-use code "\uF72F"
(`window_adapter.rs` lines 295-296) and so does dispatch a synthetic
key-press when active. -/
theorem modifier_dispatch_spec :
    (∀ m : Modifiers, send_modifiers m =
      (modifierOrder.filter
        (fun md => m.contains md && !(convert_modifier md == ""))).map
        (fun md => Action.dispatch (WindowEvent.KeyPressed (convert_modifier md))))
    ∧ modifierOrder =
      [Modifier.ALT, Modifier.ALT_GRAPH, Modifier.CAPS_LOCK, Modifier.CONTROL,
       Modifier.FN, Modifier.FN_LOCK, Modifier.META, Modifier.NUM_LOCK,
       Modifier.SCROLL_LOCK, Modifier.SHIFT, Modifier.SYMBOL, Modifier.SYMBOL_LOCK,
       Modifier.HYPER, Modifier.SUPER]
    ∧ modifierOrder.Nodup
    ∧ convert_modifier Modifier.CONTROL = convert_modifier Modifier.SUPER
    ∧ convert_modifier Modifier.CONTROL ≠ ""
    ∧ convert_modifier Modifier.FN = ""
    ∧ convert_modifier Modifier.FN_LOCK = ""
    ∧ convert_modifier Modifier.NUM_LOCK = ""
    ∧ convert_modifier Modifier.SYMBOL = ""
    ∧ convert_modifier Modifier.SYMBOL_LOCK = ""
    ∧ convert_modifier Modifier.HYPER = ""
    ∧ convert_modifier Modifier.ALT = "\u0012"
    ∧ convert_modifier Modifier.ALT_GRAPH = "\u0013"
    ∧ convert_modifier Modifier.CAPS_LOCK = "\u0014"
    ∧ convert_modifier Modifier.CONTROL = "\u0017"
    ∧ convert_modifier Modifier.META = "\u0011"
    ∧ convert_modifier Modifier.SCROLL_LOCK = "\uF72F"
    ∧ convert_modifier Modifier.SCROLL_LOCK ≠ ""
    ∧ convert_modifier Modifier.SHIFT = "\u0010"
    ∧ convert_modifier Modifier.SUPER = "\u0017"
    ∧ send_modifiers [Modifier.SCROLL_LOCK] =
        [Action.dispatch (WindowEvent.KeyPressed "\uF72F")]
    ∧ (∀ i p m, (on_event i (Event.Mouse (MouseEvent.CursorMoved p m))).2.1 =
        send_modifiers m ++
          [Action.dispatch (WindowEvent.PointerMoved
            ⟨p.x / i.user_scale_factor, p.y / i.user_scale_factor⟩)])
    ∧ (∀ i b m, (on_event i (Event.Mouse (MouseEvent.ButtonPressed b m))).2.1 =
        send_modifiers m ++
          [Action.dispatch (WindowEvent.PointerPressed i.mouse_pos (convert_button b))])
    ∧ (∀ i b m, (on_event i (Event.Mouse (MouseEvent.ButtonReleased b m))).2.1 =
        send_modifiers m ++
          [Action.dispatch (WindowEvent.PointerReleased i.mouse_pos (convert_button b))] ++
          (if i.pending_mouse_exit then [Action.dispatch WindowEvent.PointerExited] else []))
    ∧ (∀ i x y m,
        (on_event i (Event.Mouse (MouseEvent.WheelScrolled (ScrollDelta.Lines x y) m))).2.1 =
        send_modifiers m ++
          [Action.dispatch (WindowEvent.PointerScrolled i.mouse_pos
            (x * LINE_PX) (y * LINE_PX))])
    ∧ (∀ i x y m,
        (on_event i (Event.Mouse (MouseEvent.WheelScrolled (ScrollDelta.Pixels x y) m))).2.1 =
        send_modifiers m ++
          [Action.dispatch (WindowEvent.PointerScrolled i.mouse_pos x y)])
    ∧ (∀ i t m rep, (on_event i (Event.Keyboard t m KeyState.Down rep)).2.1 =
        send_modifiers m ++
          (if rep then [Action.dispatch (WindowEvent.KeyPressRepeated t)]
           else [Action.dispatch (WindowEvent.KeyPressed t)])) := by
  refine ⟨send_modifiers_eq, rfl, by decide, rfl, by decide, rfl, rfl, rfl, rfl, rfl, rfl,
    rfl, rfl, rfl, rfl, rfl, rfl, by decide, rfl, rfl, by decide,
    fun i p m => rfl, fun i b m => rfl, fun i b m => rfl,
    fun i x y m => rfl, fun i x y m => rfl, fun i t m rep => rfl⟩

/-- A concrete pre-event adapter state used for the C3 counterexample. -/
def c3_initial : EmbeddedWindowAdapterInner :=
  ⟨⟨800, 600⟩, 1, 1, ⟨0, 0⟩, false, false⟩

/-- C3 counterexample: `send_modifiers` is called before matching on the key
state, so a keyboard UP event carrying the control modifier dispatches a
synthetic modifier key-press before the key-release, contradicting the
claim's "dispatches no synthetic modifier key-press events for that event". -/
theorem keyboard_up_modifier_press_counterexample :
    (on_event c3_initial (Event.Keyboard "a" [Modifier.CONTROL] KeyState.Up false)).2.1 =
      [Action.dispatch (WindowEvent.KeyPressed "\u0017"),
       Action.dispatch (WindowEvent.KeyReleased "a")]
    ∧ Action.dispatch (WindowEvent.KeyPressed "\u0017") ∈
      (on_event c3_initial (Event.Keyboard "a" [Modifier.CONTROL] KeyState.Up false)).2.1 := by
  exact ⟨by decide, by decide⟩

/-- C3 (amended): for every keyboard host event whose key state is Up, the
adapter dispatches a key-release event carrying the key's textual
representation, preceded by the same synthetic modifier key-presses as any
other modifier-carrying host event (so nothing when the modifier set carries
no mapped modifier), and the adapter state is unchanged. -/
theorem keyboard_up_release_spec (i : EmbeddedWindowAdapterInner) (t : String)
    (m : Modifiers) (rep : Bool) :
    (on_event i (Event.Keyboard t m KeyState.Up rep)).2.1 =
      send_modifiers m ++ [Action.dispatch (WindowEvent.KeyReleased t)]
    ∧ (on_event i (Event.Keyboard t m KeyState.Up rep)).1 = i :=
  ⟨rfl, rfl⟩

/-- C4: after any sequence of host events and `set_user_scale_factor` calls
from any state, the physical size the window adapter reports equals the
logical size times the product of the system and user scale factors. -/
theorem physical_size_invariant (i : EmbeddedWindowAdapterInner) (ops : List Op) :
    wa_size (applyOps i ops) =
      ⟨(applyOps i ops).size.width *
         ((applyOps i ops).system_scale_factor * (applyOps i ops).user_scale_factor),
       (applyOps i ops).size.height *
         ((applyOps i ops).system_scale_factor * (applyOps i ops).user_scale_factor)⟩ :=
  rfl

/-- C5: a pointer-move host event at physical position `p` stores and
dispatches `p` divided componentwise by the current user scale factor alone
(the system scale factor does not appear). -/
theorem pointer_move_spec (i : EmbeddedWindowAdapterInner) (p : LogicalPosition)
    (m : Modifiers) :
    (on_event i (Event.Mouse (MouseEvent.CursorMoved p m))).1.mouse_pos =
      ⟨p.x / i.user_scale_factor, p.y / i.user_scale_factor⟩
    ∧ (on_event i (Event.Mouse (MouseEvent.CursorMoved p m))).2.1 =
      send_modifiers m ++
        [Action.dispatch (WindowEvent.PointerMoved
          ⟨p.x / i.user_scale_factor, p.y / i.user_scale_factor⟩)] :=
  ⟨rfl, rfl⟩

/-- C6: requesting a window adapter with the slot empty fails with the
"not prepared" error and leaves the slot empty; after one deposit the first
request returns that adapter and empties the slot, so a second request
without a new deposit fails. -/
theorem create_window_adapter_slot_spec :
    create_window_adapter none =
      (none, Except.error "No `WINDOW_ADAPTER_INNER`")
    ∧ (∀ slot a, create_window_adapter (deposit_window_adapter slot a) =
        (none, Except.ok a))
    ∧ (∀ slot a,
        create_window_adapter (create_window_adapter (deposit_window_adapter slot a)).1 =
          (none, Except.error "No `WINDOW_ADAPTER_INNER`")) :=
  ⟨rfl, fun _ _ => rfl, fun _ _ => rfl⟩

/-- A concrete adapter state with a last-known pointer position, used for the
C7 concrete wheel examples. -/
def c7_initial : EmbeddedWindowAdapterInner :=
  ⟨⟨800, 600⟩, 1, 1, ⟨3, 4⟩, false, false⟩

/-- C7: wheel line deltas are multiplied by the fixed 60-unit line constant,
pixel deltas pass through unchanged, and the dispatched scroll event carries
the last-known logical pointer position; concretely lines (1, 2) yield
(60, 120) and pixels (5.5, -3.2) pass through. -/
theorem wheel_scroll_spec :
    LINE_PX = 60
    ∧ (∀ i x y m,
        (on_event i (Event.Mouse (MouseEvent.WheelScrolled (ScrollDelta.Lines x y) m))).2.1 =
        send_modifiers m ++
          [Action.dispatch (WindowEvent.PointerScrolled i.mouse_pos
            (x * LINE_PX) (y * LINE_PX))])
    ∧ (∀ i x y m,
        (on_event i (Event.Mouse (MouseEvent.WheelScrolled (ScrollDelta.Pixels x y) m))).2.1 =
        send_modifiers m ++
          [Action.dispatch (WindowEvent.PointerScrolled i.mouse_pos x y)])
    ∧ (on_event c7_initial
        (Event.Mouse (MouseEvent.WheelScrolled (ScrollDelta.Lines 1 2) []))).2.1 =
      [Action.dispatch (WindowEvent.PointerScrolled ⟨3, 4⟩ 60 120)]
    ∧ (on_event c7_initial
        (Event.Mouse (MouseEvent.WheelScrolled (ScrollDelta.Pixels 5.5 (-3.2)) []))).2.1 =
      [Action.dispatch (WindowEvent.PointerScrolled ⟨3, 4⟩ 5.5 (-3.2))] := by
  refine ⟨rfl, fun i x y m => rfl, fun i x y m => rfl, ?_, ?_⟩
  · show send_modifiers [] ++
        [Action.dispatch (WindowEvent.PointerScrolled c7_initial.mouse_pos
          ((1 : ℚ) * LINE_PX) ((2 : ℚ) * LINE_PX))] = _
    norm_num [LINE_PX, c7_initial, send_modifiers, modifierOrder, Modifiers.contains]
  · show send_modifiers [] ++
        [Action.dispatch (WindowEvent.PointerScrolled c7_initial.mouse_pos
          (5.5 : ℚ) ((-3.2 : ℚ)))] = _
    norm_num [c7_initial, send_modifiers, modifierOrder, Modifiers.contains]

/-- A concrete adapter state with user scale factor 1, used for the C8
concrete resize example. -/
def c8_initial : EmbeddedWindowAdapterInner :=
  ⟨⟨640, 480⟩, 1, 1, ⟨0, 0⟩, false, false⟩

/-- C8: a host resize event stores the host-reported logical size, updates
the system scale factor from the host-reported scale, calls the renderer's
resize with the recomputed physical size, then dispatches a resize event with
the new logical size; with user scale 1, logical (800, 600) at reported scale
2 yields a renderer resize of (1600, 1200) and a resize event with
(800, 600). -/
theorem resize_event_spec :
    (∀ (i : EmbeddedWindowAdapterInner) (info : WindowInfo),
      on_event i (Event.Resized info) =
        ({ i with size := info.logicalSize, system_scale_factor := info.scale },
         [Action.rendererResize
            ⟨info.logicalSize.width * (info.scale * i.user_scale_factor),
             info.logicalSize.height * (info.scale * i.user_scale_factor)⟩,
          Action.dispatch (WindowEvent.Resized info.logicalSize)],
         EventStatus.Captured))
    ∧ (on_event c8_initial (Event.Resized ⟨⟨800, 600⟩, 2⟩)).2.1 =
      [Action.rendererResize ⟨1600, 1200⟩,
       Action.dispatch (WindowEvent.Resized ⟨800, 600⟩)] := by
  refine ⟨fun i info => rfl, ?_⟩
  simp [on_event, c8_initial, EmbeddedWindowAdapterInner.physical_size,
    EmbeddedWindowAdapterInner.scale, LogicalSize.to_physical]
  norm_num

/-- C9: calling the software backend's render before `set_window` has stored
a surface is a no-op that returns Ok, emits no actions and leaves the backend
state unchanged. -/
theorem software_render_unattached (s : PhysicalSize) :
    software_render software_default s = (software_default, [], Except.ok ()) :=
  rfl

/-- C10: the `ScaleFactorChanged` events dispatched at adapter construction
and by `set_user_scale_factor` carry the user scale factor alone, and no host
event handled by `on_event` (in particular no resize, which changes the
system scale factor) ever dispatches a `ScaleFactorChanged` event. -/
theorem scale_factor_changed_user_only :
    (∀ size usf policy, (adapter_new size usf policy).2 =
      [Action.dispatch (WindowEvent.ScaleFactorChanged usf)])
    ∧ (∀ i f, (set_user_scale_factor i f).2 =
        [Action.rendererResize (set_user_scale_factor i f).1.physical_size,
         Action.dispatch (WindowEvent.ScaleFactorChanged f)])
    ∧ (∀ i e, ((on_event i e).2.1.filter isScaleFactorChanged) = []) := by
  refine ⟨fun _ _ _ => rfl, fun _ _ => rfl, fun i e => ?_⟩
  cases e with
  | Mouse me =>
    cases me with
    | CursorMoved p m =>
      simp [on_event, List.filter_append, send_modifiers_sfc, isScaleFactorChanged]
    | ButtonPressed b m =>
      simp [on_event, List.filter_append, send_modifiers_sfc, isScaleFactorChanged]
    | ButtonReleased b m =>
      by_cases h : i.pending_mouse_exit <;>
        simp [on_event, h, List.filter_append, send_modifiers_sfc, isScaleFactorChanged]
    | WheelScrolled d m =>
      cases d <;>
        simp [on_event, List.filter_append, send_modifiers_sfc, isScaleFactorChanged]
    | CursorLeft =>
      by_cases h : i.mouse_down <;> simp [on_event, h, isScaleFactorChanged]
    | OtherMouse => rfl
  | Keyboard t m st rep =>
    cases st <;> cases rep <;>
      simp [on_event, List.filter_append, send_modifiers_sfc, isScaleFactorChanged]
  | Resized info => rfl
  | Focused => rfl
  | Unfocused => rfl
  | WillClose => rfl

end SlintBaseview
